import Mathlib

/-!
Verification of the desktop-entry registry program (src/main.py).

The program is a single-file application: a `DesktopEntryManager` owning a
JSON-backed ordered list of registration records, plus an `Application`
class whose `create_desktop_entry` and `delete_entry` callbacks orchestrate
descriptor-file generation and deletion.  The embedding below translates
the state-management and descriptor-generation logic into pure Lean
functions, passing the process-external pieces (backing-file contents,
filesystem success/failure, dialog answers, the wall clock) as explicit
parameters.
-/

/-- A registration record: the dict built at lines 134-138 of main.py
(keys app_name, appimage_path, desktop_file). -/
structure Entry where
  app_name : String
  appimage_path : String
  desktop_file : String
deriving DecidableEq, Repr

/-- A Python value as returned by json.load, restricted to the shapes that
matter here: an array of registration records (the intended shape of the
backing document) or any other JSON value (object, string, number, boolean,
null), which json.load returns unchanged and load_state stores verbatim. -/
inductive PyVal where
  | list (xs : List Entry)
  | obj (kvs : List (String × String))
  | str (s : String)
  | num (n : Int)
  | boolean (b : Bool)
  | null
deriving DecidableEq, Repr

/-- The observable condition of the backing file state.json: absent,
present but unreadable (open/read raises OSError), present with content
that json.load rejects, or present with a parsed JSON value. -/
inductive FileContent where
  | absent
  | unreadable
  | invalid
  | json (v : PyVal)
deriving DecidableEq, Repr

namespace DesktopEntryManager

/-- main.py lines 20-29.  If the backing file exists, parse it; any
exception from open or json.load is caught, logged, and the state is reset
to the empty list; a missing file also yields the empty list.  The function
is total because load_state never lets an exception reach the caller. -/
def load_state : FileContent → PyVal
  | FileContent.absent => PyVal.list []
  | FileContent.unreadable => PyVal.list []
  | FileContent.invalid => PyVal.list []
  | FileContent.json v => v

/-- main.py lines 31-36.  json.dump of the in-memory list, with the write
outcome passed in as a flag.  A failed save is caught and logged only; the
on-disk bytes are then unspecified (the file was opened for truncating
write), modelled here as invalid content.  No proved statement depends on
the failed-save branch. -/
def save_state (st : List Entry) (ok : Bool) : FileContent :=
  if ok then FileContent.json (PyVal.list st) else FileContent.invalid

/-- main.py lines 38-40, the list mutation of add_entry (the save it
triggers is applied by the callers below). -/
def add_entry (st : List Entry) (e : Entry) : List Entry :=
  st ++ [e]

/-- main.py lines 42-47.  Returns (popped record, new list, save-was-called).
Python compares the int index with 0 and len(state), so the index is an
integer here; in bounds, list.pop(index) removes and returns the record. -/
def remove_entry (st : List Entry) (i : Int) : Option Entry × List Entry × Bool :=
  if 0 ≤ i ∧ i < (st.length : Int) then
    (st[i.toNat]?, st.eraseIdx i.toNat, true)
  else
    (none, st, false)

end DesktopEntryManager

/-- Ghost-instrumented manager state for operation traces: the in-memory
list, the backing-file content, and counters of appends and of successful
removals. -/
structure MgrState where
  state : List Entry
  disk : FileContent
  appends : Nat
  removes : Nat
deriving DecidableEq, Repr

/-- One registry operation, carrying the success flag of the save_state
call it triggers. -/
inductive Op where
  | append (e : Entry) (saveOk : Bool)
  | removeAt (i : Int) (saveOk : Bool)
deriving DecidableEq, Repr

/-- The save-outcome flag carried by an operation. -/
def Op.saveOk : Op → Bool
  | Op.append _ ok => ok
  | Op.removeAt _ ok => ok

/-- Apply one operation: add_entry always mutates and saves
(main.py lines 38-40); remove_entry mutates and saves only in bounds
(lines 42-47). -/
def stepOp (m : MgrState) : Op → MgrState
  | Op.append e ok =>
    let st := DesktopEntryManager.add_entry m.state e
    { state := st, disk := DesktopEntryManager.save_state st ok,
      appends := m.appends + 1, removes := m.removes }
  | Op.removeAt i ok =>
    let r := DesktopEntryManager.remove_entry m.state i
    if r.2.2 then
      { state := r.2.1, disk := DesktopEntryManager.save_state r.2.1 ok,
        appends := m.appends, removes := m.removes + 1 }
    else m

/-- Run a list of operations in order. -/
def runOps (m : MgrState) (ops : List Op) : MgrState :=
  ops.foldl stepOp m

/-- A freshly started manager with no backing file: __init__ (lines 16-18)
sets state to the empty list and load_state of an absent file keeps it so. -/
def initMgr : MgrState :=
  { state := [], disk := FileContent.absent, appends := 0, removes := 0 }

/-- Number of append operations in a trace. -/
def numAppends (ops : List Op) : Nat :=
  (ops.filter fun op => match op with
    | Op.append _ _ => true
    | Op.removeAt _ _ => false).length

/-- Python str.replace with a one-character pattern and replacement, as
called at main.py line 115: substitutes every occurrence of the character.
Defined structurally over the character list so concrete instances
evaluate. -/
def replaceChar (s : String) (a b : Char) : String :=
  ⟨s.data.map fun c => if c = a then b else c⟩

/-- The blank character (code point 32). -/
def blankChar : Char := Char.ofNat 32

/-- main.py lines 113-115: the descriptor filename combines app_name with
blanks replaced by underscores and the wall-clock time in whole seconds
since the epoch. -/
def desktop_filename (app_name : String) (timestamp : Nat) : String :=
  replaceChar app_name blankChar '_' ++ "_" ++ toString timestamp ++ ".desktop"

/-- main.py line 10.  os.path.expanduser resolves the leading tilde to the
home directory of the current user; the claims depend only on this being
one fixed directory for the whole process, so the unexpanded literal
stands in for the expanded path. -/
def DESKTOP_ENTRY_DIR : String := "~/.local/share/applications"

/-- posixpath.join for the two-argument call at main.py line 116: an
absolute second component replaces the first, otherwise a single slash
separates the components (none is added after a trailing slash). -/
def os_path_join (a b : String) : String :=
  if b.data.head? = some '/' then b
  else if a.data.getLast? = some '/' then a ++ b
  else a ++ "/" ++ b

/-- main.py lines 109-111: the StartupWMClass value defaults to app_name
when the dialog answer is empty or cancelled. -/
def resolve_wm_class (wm_class app_name : String) : String :=
  if wm_class = "" then app_name else wm_class

/-- main.py line 122: the descriptor document, one f-string interpolating
the four values verbatim (the bundle path between literal double quotes),
with no escaping applied to any of them. -/
def desktop_content (app_name appimage_path icon_path wm_class : String) : String :=
  "[Desktop Entry]\nVersion=1.0\nType=Application\nName=" ++ app_name ++
    "\nExec=\"" ++ appimage_path ++ "\"\nIcon=" ++ icon_path ++
    "\nStartupWMClass=" ++ wm_class ++ "\nTerminal=false\nCategories=Utility;"

/-- The lines of the descriptor document as the spec section 4.2 lists
them: the group header, then exactly these fields in this order: schema
version constant, entry type constant, Name, Exec (the bundle path,
quoted), Icon (the icon path as given), StartupWMClass (the resolved
class id), Terminal=false constant, Categories=Utility constant. -/
def specDescriptorLines (app_name bundle_path icon_path class_id : String) :
    List String :=
  ["[Desktop Entry]",
   "Version=1.0",
   "Type=Application",
   "Name=" ++ app_name,
   "Exec=\"" ++ bundle_path ++ "\"",
   "Icon=" ++ icon_path,
   "StartupWMClass=" ++ class_id,
   "Terminal=false",
   "Categories=Utility;"]

/-- Join lines with single newline separators. -/
def joinLines : List String → String
  | [] => ""
  | [l] => l
  | l :: l2 :: ls => l ++ "\n" ++ joinLines (l2 :: ls)

/-- The descriptor document as the spec words describe it: the group
header followed by the eight fixed fields, one per line, nothing else. -/
def specDescriptorDocument (app_name bundle_path icon_path class_id : String) :
    String :=
  joinLines (specDescriptorLines app_name bundle_path icon_path class_id)

/-- The inputs and process-external outcomes of one run of
Application.create_desktop_entry (main.py lines 95-141): the dialog
answers (an empty string standing for a cancelled or empty answer, which
Python treats as falsy), the wall clock read at line 114, and the success
of the descriptor-file write, of the chmod, and of the registry save. -/
structure CreateEnv where
  appimage_path : String
  app_name : String
  wm_class : String
  icon_path : String
  timestamp : Nat
  writeOk : Bool
  chmodOk : Bool
  saveOk : Bool
deriving DecidableEq, Repr

/-- How one create run ends: silent return without a bundle selection
(line 98), the empty-name error dialog (line 105), the failed-write error
dialog (line 130), or the success dialog with the appended record. -/
inductive CreateOutcome where
  | noSelection
  | emptyName
  | writeError
  | success (e : Entry)
deriving DecidableEq, Repr

/-- Result of one create run: the outcome, the registry list, the
backing-file content, and the descriptor file written, if any, as a
path-content pair. -/
structure CreateResult where
  outcome : CreateOutcome
  state : List Entry
  disk : FileContent
  written : Option (String × String)
deriving DecidableEq, Repr

/-- main.py lines 95-141.  Bail out silently with no bundle selection;
show an error and stop on an empty name; otherwise resolve the class id,
build the unique path and the document, write and chmod the file (either
failure shows an error and stops before any registry change), and only
then append the record and save. -/
def create_desktop_entry (st : List Entry) (disk : FileContent) (env : CreateEnv) :
    CreateResult :=
  if env.appimage_path = "" then ⟨CreateOutcome.noSelection, st, disk, none⟩
  else if env.app_name = "" then ⟨CreateOutcome.emptyName, st, disk, none⟩
  else
    let wm := resolve_wm_class env.wm_class env.app_name
    let path := os_path_join DESKTOP_ENTRY_DIR
      (desktop_filename env.app_name env.timestamp)
    let content := desktop_content env.app_name env.appimage_path env.icon_path wm
    if env.writeOk then
      if env.chmodOk then
        let e : Entry := ⟨env.app_name, env.appimage_path, path⟩
        let st2 := DesktopEntryManager.add_entry st e
        ⟨CreateOutcome.success e, st2, DesktopEntryManager.save_state st2 env.saveOk,
          some (path, content)⟩
      else ⟨CreateOutcome.writeError, st, disk, some (path, content)⟩
    else ⟨CreateOutcome.writeError, st, disk, none⟩

/-- Process-external circumstances of one run of Application.delete_entry
(main.py lines 143-163): the confirmation answer, which descriptor paths
exist on disk, which os.remove calls succeed, and the save outcome. -/
structure DeleteEnv where
  confirmed : Bool
  fileExists : String → Bool
  removeOk : String → Bool
  saveOk : Bool

/-- How one delete run ends: an uncaught IndexError from the bare lookup
at line 151, a declined confirmation, the failed-os.remove error dialog
(line 159), or the success dialog (line 163). -/
inductive DeleteOutcome where
  | indexError
  | cancelled
  | removeError
  | success
deriving DecidableEq, Repr

/-- Result of one delete run: outcome, registry list, backing-file
content, and the descriptor files removed from the filesystem. -/
structure DeleteResult where
  outcome : DeleteOutcome
  state : List Entry
  disk : FileContent
  removedFiles : List String
deriving DecidableEq, Repr

/-- Python list indexing as used at main.py line 151: a nonnegative index
counts from the front, an index in [-len, 0) counts from the back, and
anything else raises IndexError (None here). -/
def pyGetItem (xs : List Entry) (i : Int) : Option Entry :=
  if 0 ≤ i then xs[i.toNat]?
  else if 0 ≤ i + (xs.length : Int) then xs[(i + (xs.length : Int)).toNat]?
  else none

/-- The tail of delete_entry after the filesystem step (main.py lines
161-163): remove_entry, which mutates and saves only in bounds, then the
success dialog, which is shown even when remove_entry returned the None
sentinel. -/
def deleteFinish (st : List Entry) (i : Int) (disk : FileContent) (env : DeleteEnv)
    (removed : List String) : DeleteResult :=
  let r := DesktopEntryManager.remove_entry st i
  if r.2.2 then
    ⟨DeleteOutcome.success, r.2.1,
      DesktopEntryManager.save_state r.2.1 env.saveOk, removed⟩
  else ⟨DeleteOutcome.success, st, disk, removed⟩

/-- main.py lines 143-163: look the record up by position with no bounds
check, ask for confirmation, delete the descriptor file when it exists
(an absent file is skipped; a failed os.remove aborts with an error
dialog), then remove the registry record. -/
def delete_entry (st : List Entry) (i : Int) (disk : FileContent) (env : DeleteEnv) :
    DeleteResult :=
  match pyGetItem st i with
  | none => ⟨DeleteOutcome.indexError, st, disk, []⟩
  | some e =>
    if env.confirmed then
      if env.fileExists e.desktop_file then
        if env.removeOk e.desktop_file then
          deleteFinish st i disk env [e.desktop_file]
        else ⟨DeleteOutcome.removeError, st, disk, []⟩
      else deleteFinish st i disk env []
    else ⟨DeleteOutcome.cancelled, st, disk, []⟩

/-- Numeric value of a decimal digit character. -/
def digitVal (c : Char) : Nat := c.toNat - 48

/-- Numeric value of a decimal digit string, most significant digit
first. -/
def digitsVal : List Char → Nat
  | [] => 0
  | c :: cs => digitVal c * 10 ^ cs.length + digitsVal cs

/-- Environment of one creation of the app Sample at wall-clock second
100, with every dialog answered and every filesystem operation
succeeding. -/
def sampleEnv : CreateEnv :=
  ⟨"/tmp/Sample.AppImage", "Sample", "", "", 100, true, true, true⟩

lemma stepOp_invariant (m : MgrState) (op : Op) (hok : op.saveOk = true)
    (h1 : m.state.length + m.removes = m.appends)
    (h2 : DesktopEntryManager.load_state m.disk = PyVal.list m.state) :
    (stepOp m op).state.length + (stepOp m op).removes = (stepOp m op).appends
      ∧ DesktopEntryManager.load_state (stepOp m op).disk
          = PyVal.list (stepOp m op).state := by
  cases op with
  | append e ok =>
    simp only [Op.saveOk] at hok
    subst hok
    constructor
    · simp only [stepOp, DesktopEntryManager.add_entry, List.length_append,
        List.length_cons, List.length_nil]
      omega
    · simp [stepOp, DesktopEntryManager.save_state, DesktopEntryManager.load_state]
  | removeAt i ok =>
    simp only [Op.saveOk] at hok
    subst hok
    by_cases hb : 0 ≤ i ∧ i < ((m.state.length : Int))
    · have hlt : i.toNat < m.state.length := by omega
      constructor
      · simp [stepOp, DesktopEntryManager.remove_entry, hb,
          List.length_eraseIdx_of_lt hlt]
        omega
      · simp [stepOp, DesktopEntryManager.remove_entry, hb,
          DesktopEntryManager.save_state, DesktopEntryManager.load_state]
    · constructor
      · simpa [stepOp, DesktopEntryManager.remove_entry, if_neg hb] using h1
      · simpa [stepOp, DesktopEntryManager.remove_entry, if_neg hb] using h2

lemma stepOp_appends (m : MgrState) (op : Op) :
    (stepOp m op).appends
      = m.appends + (match op with
          | Op.append _ _ => 1
          | Op.removeAt _ _ => 0) := by
  cases op with
  | append e ok => simp [stepOp]
  | removeAt i ok =>
    by_cases hb : 0 ≤ i ∧ i < ((m.state.length : Int)) <;>
      simp [stepOp, DesktopEntryManager.remove_entry, hb]

lemma runOps_invariant (ops : List Op) (m : MgrState)
    (hok : ∀ op ∈ ops, op.saveOk = true)
    (h1 : m.state.length + m.removes = m.appends)
    (h2 : DesktopEntryManager.load_state m.disk = PyVal.list m.state) :
    (runOps m ops).state.length + (runOps m ops).removes = (runOps m ops).appends
      ∧ DesktopEntryManager.load_state (runOps m ops).disk
          = PyVal.list (runOps m ops).state := by
  induction ops generalizing m with
  | nil => exact ⟨h1, h2⟩
  | cons op rest ih =>
    have hop : op.saveOk = true := hok op (List.mem_cons_self op rest)
    have hstep := stepOp_invariant m op hop h1 h2
    have hrest : ∀ o ∈ rest, o.saveOk = true := fun o ho =>
      hok o (List.mem_cons_of_mem op ho)
    simpa [runOps, List.foldl_cons] using ih (stepOp m op) hrest hstep.1 hstep.2

lemma runOps_appends (ops : List Op) (m : MgrState) :
    (runOps m ops).appends = m.appends + numAppends ops := by
  induction ops generalizing m with
  | nil => simp [runOps, numAppends]
  | cons op rest ih =>
    have hrun : runOps m (op :: rest) = runOps (stepOp m op) rest := by
      simp [runOps]
    rw [hrun, ih, stepOp_appends]
    cases op with
    | append e ok =>
      simp [numAppends, List.filter_cons]
      omega
    | removeAt i ok => simp [numAppends, List.filter_cons]

/-- C1: starting from a fresh empty registry, for any trace of append and
removeAt operations in which every triggered save succeeds, the in-memory
record count equals the number of appends minus the number of successful
removals, and reloading the backing document with load_state reproduces the
in-memory sequence exactly. -/
theorem C1_count_and_round_trip (ops : List Op)
    (hok : ∀ op ∈ ops, op.saveOk = true) :
    (runOps initMgr ops).state.length
        = numAppends ops - (runOps initMgr ops).removes
      ∧ DesktopEntryManager.load_state (runOps initMgr ops).disk
          = PyVal.list (runOps initMgr ops).state := by
  have hinv := runOps_invariant ops initMgr hok (by simp [initMgr])
    (by simp [initMgr, DesktopEntryManager.load_state])
  have happ : (runOps initMgr ops).appends = numAppends ops := by
    simpa [initMgr] using runOps_appends ops initMgr
  have h1 := hinv.1
  exact ⟨by omega, hinv.2⟩

/-- Witness for C1 on a concrete trace: two appends then one removal, all
saves succeeding. -/
theorem C1_witness :
    (runOps initMgr [Op.append ⟨"A", "/a", "/d"⟩ true,
        Op.append ⟨"B", "/b", "/e"⟩ true, Op.removeAt 0 true]).state.length
        = numAppends [Op.append ⟨"A", "/a", "/d"⟩ true,
            Op.append ⟨"B", "/b", "/e"⟩ true, Op.removeAt 0 true]
          - (runOps initMgr [Op.append ⟨"A", "/a", "/d"⟩ true,
              Op.append ⟨"B", "/b", "/e"⟩ true, Op.removeAt 0 true]).removes
      ∧ DesktopEntryManager.load_state
          (runOps initMgr [Op.append ⟨"A", "/a", "/d"⟩ true,
            Op.append ⟨"B", "/b", "/e"⟩ true, Op.removeAt 0 true]).disk
        = PyVal.list (runOps initMgr [Op.append ⟨"A", "/a", "/d"⟩ true,
            Op.append ⟨"B", "/b", "/e"⟩ true, Op.removeAt 0 true]).state :=
  C1_count_and_round_trip _ (by decide)

/-- C3: remove_entry at a position inside [0, length) pops and returns the
record at that position and triggers a save; at a position outside
[0, length) it returns the None sentinel, leaves the list unchanged and
triggers no save. -/
theorem C3_remove_entry_bounds (xs : List Entry) (i : Int) :
    (0 ≤ i ∧ i < (xs.length : Int) →
      ∃ e, xs[i.toNat]? = some e ∧
        DesktopEntryManager.remove_entry xs i
          = (some e, xs.take i.toNat ++ xs.drop (i.toNat + 1), true))
    ∧ (¬(0 ≤ i ∧ i < (xs.length : Int)) →
      DesktopEntryManager.remove_entry xs i = (none, xs, false)) := by
  constructor
  · intro hb
    have hlt : i.toNat < xs.length := by omega
    refine ⟨xs[i.toNat], List.getElem?_eq_getElem hlt, ?_⟩
    simp [DesktopEntryManager.remove_entry, hb, List.getElem?_eq_getElem hlt,
      List.eraseIdx_eq_take_drop_succ]
  · intro hb
    simp [DesktopEntryManager.remove_entry, hb]

/-- Witness for C3: a two-record list, position 1 in bounds and position 5
out of bounds. -/
theorem C3_witness :
    (∃ e, [Entry.mk "A" "/a" "/d", Entry.mk "B" "/b" "/e"][(1 : Int).toNat]? = some e ∧
      DesktopEntryManager.remove_entry [Entry.mk "A" "/a" "/d", Entry.mk "B" "/b" "/e"] 1
        = (some e,
            [Entry.mk "A" "/a" "/d", Entry.mk "B" "/b" "/e"].take (1 : Int).toNat
              ++ [Entry.mk "A" "/a" "/d", Entry.mk "B" "/b" "/e"].drop ((1 : Int).toNat + 1),
            true))
    ∧ DesktopEntryManager.remove_entry [Entry.mk "A" "/a" "/d", Entry.mk "B" "/b" "/e"] 5
        = (none, [Entry.mk "A" "/a" "/d", Entry.mk "B" "/b" "/e"], false) :=
  ⟨(C3_remove_entry_bounds [Entry.mk "A" "/a" "/d", Entry.mk "B" "/b" "/e"] 1).1 (by decide),
   (C3_remove_entry_bounds [Entry.mk "A" "/a" "/d", Entry.mk "B" "/b" "/e"] 5).2 (by decide)⟩

/-- C7: whether the backing file is absent, unreadable, or holds content
json.load rejects, load_state yields the empty list; it is a total
function, so no error reaches the caller. -/
theorem C7_load_failures_give_empty :
    DesktopEntryManager.load_state FileContent.absent = PyVal.list []
      ∧ DesktopEntryManager.load_state FileContent.unreadable = PyVal.list []
      ∧ DesktopEntryManager.load_state FileContent.invalid = PyVal.list [] :=
  ⟨rfl, rfl, rfl⟩

/-- C9: load_state does no shape validation: any successfully parsed JSON
value, in particular one that is not an array of records, is stored in
memory verbatim and no error is raised. -/
theorem C9_load_no_shape_validation (v : PyVal)
    (_hv : ∀ xs : List Entry, v ≠ PyVal.list xs) :
    DesktopEntryManager.load_state (FileContent.json v) = v := rfl

/-- Witness for C9 at a JSON string value, which is not a record array. -/
theorem C9_witness :
    DesktopEntryManager.load_state (FileContent.json (PyVal.str "oops"))
      = PyVal.str "oops" :=
  C9_load_no_shape_validation (PyVal.str "oops") (fun xs h => by cases h)

lemma desktop_content_eq_spec (a p ic r : String) :
    desktop_content a p ic r = specDescriptorDocument a p ic r := by
  apply String.ext
  simp only [desktop_content, specDescriptorDocument, specDescriptorLines, joinLines,
    String.data_append]
  simp [List.append_assoc, List.cons_append, List.nil_append]

/-- C2: for nonempty app_name, bundle path and icon path, the rendered
document equals the spec-side fixed-schema document: the group header and
exactly the eight fields in order, with the bundle path quoted, the icon
path and every other value interpolated verbatim (no escaping), and the
class id resolved to the supplied value when nonempty and to app_name
otherwise. -/
theorem C2_rendering_matches_spec (app_name bundle_path icon_path class_id : String)
    (_h1 : app_name ≠ "") (_h2 : bundle_path ≠ "") (_h3 : icon_path ≠ "") :
    desktop_content app_name bundle_path icon_path
        (resolve_wm_class class_id app_name)
      = specDescriptorDocument app_name bundle_path icon_path
          (if class_id = "" then app_name else class_id) :=
  desktop_content_eq_spec app_name bundle_path icon_path
    (resolve_wm_class class_id app_name)

/-- Witness for C2 at concrete values with an empty supplied class id. -/
theorem C2_witness :
    desktop_content "Foo App" "/path/Foo.AppImage" "/icons/foo.png"
        (resolve_wm_class "" "Foo App")
      = specDescriptorDocument "Foo App" "/path/Foo.AppImage" "/icons/foo.png"
          (if ("" : String) = "" then "Foo App" else "") :=
  C2_rendering_matches_spec "Foo App" "/path/Foo.AppImage" "/icons/foo.png" ""
    (by decide) (by decide) (by decide)

/-- C4: when the descriptor-file write or the chmod fails, the run ends in
the error dialog and the registry is untouched: the in-memory list and the
backing document are exactly as before (add_entry is never reached). -/
theorem C4_write_failure_appends_nothing (st : List Entry) (disk : FileContent)
    (env : CreateEnv) (h1 : env.appimage_path ≠ "") (h2 : env.app_name ≠ "")
    (h3 : env.writeOk = false ∨ env.chmodOk = false) :
    (create_desktop_entry st disk env).outcome = CreateOutcome.writeError
      ∧ (create_desktop_entry st disk env).state = st
      ∧ (create_desktop_entry st disk env).disk = disk := by
  rcases h3 with h3 | h3
  · simp [create_desktop_entry, h1, h2, h3]
  · by_cases hw : env.writeOk = true
    · simp [create_desktop_entry, h1, h2, hw, h3]
    · have hw0 : env.writeOk = false := by simpa using hw
      simp [create_desktop_entry, h1, h2, hw0]

/-- Witness for C4: chmod fails on an otherwise complete creation. -/
theorem C4_witness :
    (create_desktop_entry [] FileContent.absent
        ⟨"/tmp/Sample.AppImage", "Sample", "", "", 100, true, false, true⟩).outcome
        = CreateOutcome.writeError
      ∧ (create_desktop_entry [] FileContent.absent
          ⟨"/tmp/Sample.AppImage", "Sample", "", "", 100, true, false, true⟩).state = []
      ∧ (create_desktop_entry [] FileContent.absent
          ⟨"/tmp/Sample.AppImage", "Sample", "", "", 100, true, false, true⟩).disk
        = FileContent.absent :=
  C4_write_failure_appends_nothing [] FileContent.absent
    ⟨"/tmp/Sample.AppImage", "Sample", "", "", 100, true, false, true⟩
    (by decide) (by decide) (Or.inr rfl)

/-- C8: a creation attempt that reached the name prompt (a bundle was
selected) and got an empty app_name ends at the validation error dialog
with no partial effects: no descriptor file is written and the registry
list and backing document are unchanged. -/
theorem C8_empty_name_no_effects (st : List Entry) (disk : FileContent)
    (env : CreateEnv) (h1 : env.appimage_path ≠ "") (h2 : env.app_name = "") :
    create_desktop_entry st disk env
      = ⟨CreateOutcome.emptyName, st, disk, none⟩ := by
  simp [create_desktop_entry, h1, h2]

/-- Witness for C8 with one preexisting record. -/
theorem C8_witness :
    create_desktop_entry [Entry.mk "A" "/a" "/d"] (FileContent.json (PyVal.list [Entry.mk "A" "/a" "/d"]))
        ⟨"/tmp/Sample.AppImage", "", "", "", 100, true, true, true⟩
      = ⟨CreateOutcome.emptyName, [Entry.mk "A" "/a" "/d"],
          FileContent.json (PyVal.list [Entry.mk "A" "/a" "/d"]), none⟩ :=
  C8_empty_name_no_effects [Entry.mk "A" "/a" "/d"]
    (FileContent.json (PyVal.list [Entry.mk "A" "/a" "/d"]))
    ⟨"/tmp/Sample.AppImage", "", "", "", 100, true, true, true⟩ (by decide) rfl

/-- C5: deleting at a confirmed valid position: when the descriptor file
is already absent the deletion still succeeds, the record is removed and
saved, and no error is raised; when os.remove fails on an existing file
the error dialog is shown and the registry record is not removed. -/
theorem C5_delete_tolerates_absent_file (st : List Entry) (i : Int)
    (disk : FileContent) (env : DeleteEnv) (e : Entry)
    (hi : 0 ≤ i) (hl : i < (st.length : Int)) (hc : env.confirmed = true)
    (he : st[i.toNat]? = some e) :
    (env.fileExists e.desktop_file = false →
      delete_entry st i disk env
        = ⟨DeleteOutcome.success, st.eraseIdx i.toNat,
            DesktopEntryManager.save_state (st.eraseIdx i.toNat) env.saveOk, []⟩)
    ∧ (env.fileExists e.desktop_file = true → env.removeOk e.desktop_file = false →
      delete_entry st i disk env = ⟨DeleteOutcome.removeError, st, disk, []⟩) := by
  have hget : pyGetItem st i = some e := by simp [pyGetItem, hi, he]
  have hb : 0 ≤ i ∧ i < (st.length : Int) := ⟨hi, hl⟩
  constructor
  · intro hf
    simp [delete_entry, hget, hc, hf, deleteFinish,
      DesktopEntryManager.remove_entry, hb]
  · intro hf hr
    simp [delete_entry, hget, hc, hf, hr]

/-- Witness for C5: a one-record registry, position 0; first with the
descriptor file absent, then with it present but undeletable. -/
theorem C5_witness :
    delete_entry [Entry.mk "A" "/a" "/d"] 0 (FileContent.json (PyVal.list [Entry.mk "A" "/a" "/d"]))
        ⟨true, fun _ => false, fun _ => true, true⟩
      = ⟨DeleteOutcome.success, [],
          DesktopEntryManager.save_state [] true, []⟩
    ∧ delete_entry [Entry.mk "A" "/a" "/d"] 0 (FileContent.json (PyVal.list [Entry.mk "A" "/a" "/d"]))
        ⟨true, fun _ => true, fun _ => false, true⟩
      = ⟨DeleteOutcome.removeError, [Entry.mk "A" "/a" "/d"],
          FileContent.json (PyVal.list [Entry.mk "A" "/a" "/d"]), []⟩ :=
  ⟨(C5_delete_tolerates_absent_file [Entry.mk "A" "/a" "/d"] 0 _
      ⟨true, fun _ => false, fun _ => true, true⟩ (Entry.mk "A" "/a" "/d")
      (by decide) (by decide) rfl rfl).1 rfl,
   (C5_delete_tolerates_absent_file [Entry.mk "A" "/a" "/d"] 0 _
      ⟨true, fun _ => true, fun _ => false, true⟩ (Entry.mk "A" "/a" "/d")
      (by decide) (by decide) rfl rfl).2 rfl rfl⟩

/-- C10: the lookup at line 151 runs before any bounds check: at a
position at or beyond the length it raises IndexError (no not-found
report, no mutation, no file deleted), and at a position in [-length, 0)
it resolves to the record counted from the end, whose descriptor file is
then deleted, while remove_entry afterwards returns the None sentinel and
mutates nothing. -/
theorem C10_unchecked_lookup (st : List Entry) (i : Int) (disk : FileContent)
    (env : DeleteEnv) :
    ((st.length : Int) ≤ i →
      delete_entry st i disk env = ⟨DeleteOutcome.indexError, st, disk, []⟩)
    ∧ (∀ e : Entry, -(st.length : Int) ≤ i → i < 0 →
        st[(i + (st.length : Int)).toNat]? = some e →
        env.confirmed = true →
        env.fileExists e.desktop_file = true →
        env.removeOk e.desktop_file = true →
        delete_entry st i disk env
          = ⟨DeleteOutcome.success, st, disk, [e.desktop_file]⟩) := by
  constructor
  · intro hge
    have h0 : 0 ≤ i := by omega
    have hnone : st[i.toNat]? = none := List.getElem?_eq_none (by omega)
    simp [delete_entry, pyGetItem, h0, hnone]
  · intro e h1 h2 hget hc hf hr
    have hneg : ¬ (0 ≤ i) := by omega
    have hok2 : 0 ≤ i + (st.length : Int) := by omega
    have hgetp : pyGetItem st i = some e := by
      simp [pyGetItem, hneg, hok2, hget]
    have hnb : ¬ (0 ≤ i ∧ i < (st.length : Int)) := by omega
    simp [delete_entry, hgetp, hc, hf, hr, deleteFinish,
      DesktopEntryManager.remove_entry, hnb]

/-- Witness for C10: a one-record registry, first probed at position 5
(IndexError), then at position -1, where the record counted from the end
loses its descriptor file while the registry stays intact. -/
theorem C10_witness :
    delete_entry [Entry.mk "A" "/a" "/d"] 5 FileContent.absent
        ⟨true, fun _ => true, fun _ => true, true⟩
      = ⟨DeleteOutcome.indexError, [Entry.mk "A" "/a" "/d"], FileContent.absent, []⟩
    ∧ delete_entry [Entry.mk "A" "/a" "/d"] (-1) FileContent.absent
        ⟨true, fun _ => true, fun _ => true, true⟩
      = ⟨DeleteOutcome.success, [Entry.mk "A" "/a" "/d"], FileContent.absent, ["/d"]⟩ :=
  ⟨(C10_unchecked_lookup [Entry.mk "A" "/a" "/d"] 5 FileContent.absent
      ⟨true, fun _ => true, fun _ => true, true⟩).1 (by decide),
   (C10_unchecked_lookup [Entry.mk "A" "/a" "/d"] (-1) FileContent.absent
      ⟨true, fun _ => true, fun _ => true, true⟩).2 (Entry.mk "A" "/a" "/d")
      (by decide) (by decide) rfl rfl rfl rfl⟩

lemma digitVal_digitChar (n : Nat) (h : n < 10) :
    digitVal (Nat.digitChar n) = n := by
  interval_cases n <;> rfl

lemma digitsVal_toDigitsCore (fuel : Nat) :
    ∀ (n : Nat) (acc : List Char), n ≤ fuel →
      digitsVal (Nat.toDigitsCore 10 fuel n acc)
        = n * 10 ^ acc.length + digitsVal acc := by
  induction fuel with
  | zero =>
    intro n acc h
    have hn : n = 0 := by omega
    subst hn
    simp [Nat.toDigitsCore]
  | succ f ih =>
    intro n acc h
    by_cases h10 : n / 10 = 0
    · have hn : n < 10 := by omega
      have hmod : n % 10 = n := Nat.mod_eq_of_lt hn
      simp [Nat.toDigitsCore, h10, digitsVal, hmod, digitVal_digitChar n hn]
    · have hrec : n / 10 ≤ f := by
        have hlt : n / 10 < n := Nat.div_lt_self (by omega) (by omega)
        omega
      have hstep : Nat.toDigitsCore 10 (f + 1) n acc
          = Nat.toDigitsCore 10 f (n / 10) (Nat.digitChar (n % 10) :: acc) := by
        simp [Nat.toDigitsCore, h10]
      have hm : n % 10 < 10 := Nat.mod_lt _ (by omega)
      rw [hstep, ih (n / 10) _ hrec]
      simp only [digitsVal, List.length_cons, digitVal_digitChar _ hm, pow_succ]
      have hd : 10 * (n / 10) + n % 10 = n := Nat.div_add_mod n 10
      conv_rhs => rw [← hd]
      ring

lemma natRepr_inj {m n : Nat} (h : Nat.repr m = Nat.repr n) : m = n := by
  have hd : Nat.toDigits 10 m = Nat.toDigits 10 n := congrArg String.data h
  have hm := digitsVal_toDigitsCore (m + 1) m [] (by omega)
  have hn := digitsVal_toDigitsCore (n + 1) n [] (by omega)
  simp [digitsVal] at hm hn
  have hv : digitsVal (Nat.toDigits 10 m) = digitsVal (Nat.toDigits 10 n) := by
    rw [hd]
  simpa [Nat.toDigits, hm, hn] using hv

/-- C6 counterexample: two creations for app_name Sample in the same
wall-clock second both succeed, the registry gains two records, yet the two
descriptor paths coincide, refuting the unconditional distinctness of the
two descriptor filenames within one process. -/
theorem C6_counterexample_same_second :
    (create_desktop_entry [] FileContent.absent sampleEnv).outcome
        = CreateOutcome.success
            ⟨"Sample", "/tmp/Sample.AppImage",
              "~/.local/share/applications/Sample_100.desktop"⟩
      ∧ (create_desktop_entry (create_desktop_entry [] FileContent.absent sampleEnv).state
            (create_desktop_entry [] FileContent.absent sampleEnv).disk sampleEnv).state.map
            Entry.desktop_file
          = ["~/.local/share/applications/Sample_100.desktop",
             "~/.local/share/applications/Sample_100.desktop"] := by
  decide

/-- C6 (amended): the descriptor filename is app_name with blanks replaced
by underscores, an underscore, and the wall-clock seconds, and two
filenames generated for the same app_name are distinct whenever the
wall-clock seconds of the two creations differ; two creations within the
same second receive the same filename. -/
theorem C6_amended_distinct_filenames (app_name : String) (t1 t2 : Nat)
    (h : t1 ≠ t2) :
    desktop_filename app_name t1 ≠ desktop_filename app_name t2 := by
  intro heq
  apply h
  have hdata : (desktop_filename app_name t1).data
      = (desktop_filename app_name t2).data := congrArg String.data heq
  simp only [desktop_filename, String.data_append, List.append_assoc,
    List.append_cancel_left_eq] at hdata
  have h2 := (List.append_inj' hdata rfl).1
  exact natRepr_inj (String.ext h2)

/-- Witness for the amended C6 at seconds 1 and 2. -/
theorem C6_amended_witness :
    (1 : Nat) ≠ 2 ∧ desktop_filename "Sample" 1 ≠ desktop_filename "Sample" 2 :=
  ⟨by decide, C6_amended_distinct_filenames "Sample" 1 2 (by decide)⟩
